import Mathlib

/-
  Verification of the CodeHub / CodebaseQA repository against its
  natural-language specification.

  Part A embeds the category-based repository filtering and view model
  (Repository Record Store, Category Store, Filter Evaluator, Saved View
  Store).  The repository ships only the client-side callers of this
  subsystem (the GitHub explorer page issues fetch calls against
  /api/user/repositories and /api/user/categories); the server-side store
  and filter implementations are not part of the source tree, so those
  definitions are modelled from the specification text, as their doc
  comments state.

  Part B embeds the codegen-sdk API route dispatch
  (codebaseQA/frontend/app/api/codegen-sdk/route.ts).

  Part C embeds the knowledge-transfer API route mock-data generator
  (codebaseQA/frontend/app/api/knowledge-transfer/route.ts).
-/

namespace CodeHub

instance {ε α : Type} [DecidableEq ε] [DecidableEq α] : DecidableEq (Except ε α) := by
  intro a b
  cases a <;> cases b
  case error.error e f => exact decidable_of_iff (e = f) (by simp)
  case ok.ok x y => exact decidable_of_iff (x = y) (by simp)
  all_goals exact isFalse (by intro hcontra; cases hcontra)

/-! ## Part A: category / repository / view stores and the filter evaluator -/

/-- Modelled from the spec: the error taxonomy of section 7 of the spec
(ValidationError, NotFoundError, DuplicateError); the server-side store code
that raises these errors is missing from the source tree. -/
inductive StoreError
  | validationError
  | notFoundError
  | duplicateError
deriving DecidableEq

/-- Modelled from the spec: the filter combination mode of the View data
model (ALL = AND, ANY = OR, UNCATEGORIZED); the server-side filter code is
missing from the source tree. -/
inductive FilterMode
  | ALL
  | ANY
  | UNCATEGORIZED
deriving DecidableEq

/-- Modelled from the spec: a saved Repository record: stable remote
identifier, opaque descriptive payload, and the set of attached category
identifiers.  The server-side Repository Record Store is missing from the
source tree. -/
structure Repository where
  id : Nat
  payload : String
  categoryIds : Finset Nat
deriving DecidableEq

/-- Modelled from the spec: the repository payload supplied by the
GitHub-search collaborator when saving (remote id plus opaque metadata);
the server-side store accepting it is missing from the source tree. -/
structure RepositoryPayload where
  id : Nat
  payload : String
deriving DecidableEq

/-- Modelled from the spec: a user-defined Category (identifier, name,
optional display color); the server-side Category Store is missing from
the source tree. -/
structure Category where
  id : Nat
  name : String
  color : Option String
deriving DecidableEq

/-- Modelled from the spec: a saved View (identifier, name, selected
category id set, combination mode); the server-side Saved View Store is
missing from the source tree. -/
structure View where
  id : Nat
  name : String
  selectedCategoryIds : Finset Nat
  mode : FilterMode
deriving DecidableEq

/-- Modelled from the spec: the per-user persistent state of the three
stores (Category Store, Repository Record Store, Saved View Store); the
server-side persistence layer is missing from the source tree. -/
structure StoreState where
  categories : List Category
  repos : List Repository
  views : List View
deriving DecidableEq

/-- Modelled from the spec: the per-repository keep predicate of the
Filter Evaluator (section 4.3): ALL keeps a repository iff the selected set
is a subset of its category ids, ANY iff the intersection is non-empty,
UNCATEGORIZED iff its category id set is empty. -/
def keepRepo (s : Finset Nat) (mode : FilterMode) (r : Repository) : Bool :=
  match mode with
  | .ALL => decide (s ⊆ r.categoryIds)
  | .ANY => decide (¬ s ∩ r.categoryIds = ∅)
  | .UNCATEGORIZED => decide (r.categoryIds = ∅)

/-- Modelled from the spec: the Filter Evaluator of section 4.3, missing
from the source tree.  An empty selected set with mode ALL or ANY is a
caller error (ValidationError); UNCATEGORIZED ignores the selected set;
otherwise the input list is filtered by the keep predicate. -/
def evaluate (repos : List Repository) (s : Finset Nat) (mode : FilterMode) :
    Except StoreError (List Repository) :=
  if mode = .UNCATEGORIZED then
    .ok (repos.filter (keepRepo s .UNCATEGORIZED))
  else if s = ∅ then
    .error .validationError
  else
    .ok (repos.filter (keepRepo s mode))

/-- Modelled from the spec: the set of category ids currently present in
the Category Store, used for write-time referential-integrity checks. -/
def categoryIdSet (s : StoreState) : Finset Nat :=
  (s.categories.map Category.id).toFinset

/-- Modelled from the spec: Category Store create (section 4.1), missing
from the source tree.  Empty or already-used names are a ValidationError. -/
def createCategory (s : StoreState) (cid : Nat) (name : String)
    (color : Option String) : Except StoreError StoreState :=
  if name = "" ∨ s.categories.any (fun c => decide (c.name = name)) then
    .error .validationError
  else
    .ok { s with categories := s.categories ++ [{ id := cid, name := name, color := color }] }

/-- Modelled from the spec: Category Store update (section 4.1), missing
from the source tree.  Unknown id is a NotFoundError; name and color are
replaced when supplied. -/
def updateCategory (s : StoreState) (cid : Nat) (name : Option String)
    (color : Option String) : Except StoreError StoreState :=
  if s.categories.any (fun c => decide (c.id = cid)) then
    .ok { s with categories := s.categories.map (fun c =>
      if c.id = cid then
        { c with name := name.getD c.name,
                 color := match color with | some col => some col | none => c.color }
      else c) }
  else
    .error .notFoundError

/-- Modelled from the spec: Category Store delete (section 4.1), missing
from the source tree.  Unknown id is a NotFoundError; otherwise the
category is removed and the deleted id is stripped from the categoryIds of
every saved repository (the cascade). -/
def deleteCategory (s : StoreState) (cid : Nat) : Except StoreError StoreState :=
  if s.categories.any (fun c => decide (c.id = cid)) then
    .ok { s with
          categories := s.categories.filter (fun c => decide (¬ c.id = cid)),
          repos := s.repos.map (fun r => { r with categoryIds := r.categoryIds.erase cid }) }
  else
    .error .notFoundError

/-- Modelled from the spec: Repository Record Store save (section 4.2),
missing from the source tree.  A repository with the same stable remote id
already saved is a DuplicateError; category ids not present in the
Category Store are a ValidationError; otherwise the repository is appended
with the given category ids. -/
def saveRepository (s : StoreState) (p : RepositoryPayload) (catIds : Finset Nat) :
    Except StoreError StoreState :=
  if s.repos.any (fun r => decide (r.id = p.id)) then
    .error .duplicateError
  else if catIds ⊆ categoryIdSet s then
    .ok { s with repos := s.repos ++ [{ id := p.id, payload := p.payload, categoryIds := catIds }] }
  else
    .error .validationError

/-- Modelled from the spec: Repository Record Store remove (section 4.2),
missing from the source tree.  Unknown id is a NotFoundError. -/
def removeRepository (s : StoreState) (rid : Nat) : Except StoreError StoreState :=
  if s.repos.any (fun r => decide (r.id = rid)) then
    .ok { s with repos := s.repos.filter (fun r => decide (¬ r.id = rid)) }
  else
    .error .notFoundError

/-- Modelled from the spec: Repository Record Store addCategories
(section 4.2), missing from the source tree.  Unknown category ids are a
ValidationError, unknown repository id a NotFoundError; otherwise the
category id set of the repository is united with the given ids. -/
def addCategories (s : StoreState) (rid : Nat) (catIds : Finset Nat) :
    Except StoreError StoreState :=
  if catIds ⊆ categoryIdSet s then
    if s.repos.any (fun r => decide (r.id = rid)) then
      .ok { s with repos := s.repos.map (fun r =>
        if r.id = rid then { r with categoryIds := r.categoryIds ∪ catIds } else r) }
    else
      .error .notFoundError
  else
    .error .validationError

/-- Modelled from the spec: Repository Record Store removeCategories
(section 4.2), missing from the source tree.  Unknown category ids are a
ValidationError, unknown repository id a NotFoundError; otherwise the
given ids are removed from the category id set of the repository. -/
def removeCategories (s : StoreState) (rid : Nat) (catIds : Finset Nat) :
    Except StoreError StoreState :=
  if catIds ⊆ categoryIdSet s then
    if s.repos.any (fun r => decide (r.id = rid)) then
      .ok { s with repos := s.repos.map (fun r =>
        if r.id = rid then { r with categoryIds := r.categoryIds \ catIds } else r) }
    else
      .error .notFoundError
  else
    .error .validationError

/-- Modelled from the spec: Saved View Store create (section 4.4), missing
from the source tree.  The mode/id-set invariant of section 3 is validated
first (ALL and ANY require a non-empty category id set, ValidationError on
violation); a name already used is a DuplicateError. -/
def createView (s : StoreState) (vid : Nat) (name : String)
    (catIds : Finset Nat) (mode : FilterMode) : Except StoreError StoreState :=
  if (mode = .ALL ∨ mode = .ANY) ∧ catIds = ∅ then
    .error .validationError
  else if s.views.any (fun v => decide (v.name = name)) then
    .error .duplicateError
  else
    .ok { s with views := s.views ++ [{ id := vid, name := name, selectedCategoryIds := catIds, mode := mode }] }

/-- Modelled from the spec: Saved View Store rename (section 4.4), missing
from the source tree.  Unknown id is a NotFoundError. -/
def renameView (s : StoreState) (vid : Nat) (newName : String) :
    Except StoreError StoreState :=
  if s.views.any (fun v => decide (v.id = vid)) then
    .ok { s with views := s.views.map (fun v =>
      if v.id = vid then { v with name := newName } else v) }
  else
    .error .notFoundError

/-- Modelled from the spec: Saved View Store delete (section 4.4), missing
from the source tree.  Unknown id is a NotFoundError. -/
def deleteView (s : StoreState) (vid : Nat) : Except StoreError StoreState :=
  if s.views.any (fun v => decide (v.id = vid)) then
    .ok { s with views := s.views.filter (fun v => decide (¬ v.id = vid)) }
  else
    .error .notFoundError

/-- Modelled from the spec: the catalogue of mutating store operations of
section 4 (the server-side code implementing them is missing from the
source tree), used to state store-wide invariants. -/
inductive StoreOp
  | createCategoryOp (cid : Nat) (name : String) (color : Option String)
  | updateCategoryOp (cid : Nat) (name : Option String) (color : Option String)
  | deleteCategoryOp (cid : Nat)
  | saveRepositoryOp (p : RepositoryPayload) (catIds : Finset Nat)
  | removeRepositoryOp (rid : Nat)
  | addCategoriesOp (rid : Nat) (catIds : Finset Nat)
  | removeCategoriesOp (rid : Nat) (catIds : Finset Nat)
  | createViewOp (vid : Nat) (name : String) (catIds : Finset Nat) (mode : FilterMode)
  | renameViewOp (vid : Nat) (name : String)
  | deleteViewOp (vid : Nat)

/-- Modelled from the spec: dispatch of a store operation to its
implementation; the server-side request router is missing from the source
tree. -/
def applyOp (s : StoreState) (op : StoreOp) : Except StoreError StoreState :=
  match op with
  | .createCategoryOp cid name color => createCategory s cid name color
  | .updateCategoryOp cid name color => updateCategory s cid name color
  | .deleteCategoryOp cid => deleteCategory s cid
  | .saveRepositoryOp p catIds => saveRepository s p catIds
  | .removeRepositoryOp rid => removeRepository s rid
  | .addCategoriesOp rid catIds => addCategories s rid catIds
  | .removeCategoriesOp rid catIds => removeCategories s rid catIds
  | .createViewOp vid name catIds mode => createView s vid name catIds mode
  | .renameViewOp vid name => renameView s vid name
  | .deleteViewOp vid => deleteView s vid

/-- Modelled from the spec: transactional execution of one store operation
(section 7: every operation is a simple all-or-nothing state transition):
a failed operation leaves the state unchanged. -/
def exec (s : StoreState) (op : StoreOp) : StoreState :=
  match applyOp s op with
  | .ok s2 => s2
  | .error _ => s

/-- Modelled from the spec: the referential-integrity invariant of the data
model (section 3): every categoryIds entry of every saved repository
references an existing category. -/
def integrity (s : StoreState) : Prop :=
  ∀ r ∈ s.repos, r.categoryIds ⊆ categoryIdSet s

instance (s : StoreState) : Decidable (integrity s) := by
  unfold integrity
  infer_instance

/-! ## Part B: the codegen-sdk API route
    (codebaseQA/frontend/app/api/codegen-sdk/route.ts) -/

/-- The untyped params object destructured from the request body
(`const { operation, ...params } = await req.json()`); its contents are
never inspected by the dispatch logic, so it is kept opaque. -/
def Params : Type := List (String × String)

instance : DecidableEq Params := by
  unfold Params
  infer_instance

/-- The JSON payload produced by one of the simulate* functions of
route.ts.  Each simulator returns a literal object built from its params;
the dispatch logic never inspects these payloads, so each is represented
by a constructor tagged with the simulator that produced it, carrying the
params it received (simulateCustomOperation additionally receives the
operation string). -/
inductive SimResponse
  | analyze (p : Params)
  | findDeadCode (p : Params)
  | editFile (p : Params)
  | createFile (p : Params)
  | deleteFile (p : Params)
  | getSymbol (p : Params)
  | renameSymbol (p : Params)
  | moveSymbol (p : Params)
  | semanticEdit (p : Params)
  | getDependencies (p : Params)
  | analyzeImports (p : Params)
  | addImport (p : Params)
  | analyzeJsxComponent (p : Params)
  | getCallGraph (p : Params)
  | getCodebaseStructure (p : Params)
  | findFunctionsByPattern (p : Params)
  | findClassesByPattern (p : Params)
  | searchCode (p : Params)
  | semanticSearch (p : Params)
  | getAllFiles (p : Params)
  | getAllFunctions (p : Params)
  | getAllClasses (p : Params)
  | getFileContent (p : Params)
  | extractFunction (p : Params)
  | refactorCode (p : Params)
  | generateDocumentation (p : Params)
  | addParameter (p : Params)
  | removeParameter (p : Params)
  | changeReturnType (p : Params)
  | findUnusedImports (p : Params)
  | removeUnusedImports (p : Params)
  | formatCode (p : Params)
  | custom (operation : String) (p : Params)
deriving DecidableEq

/-- Result of the POST handler of route.ts: either a 200 JSON response
carrying a simulator payload, or a 400 error response with a message. -/
inductive SdkResult
  | json (r : SimResponse)
  | badRequest (msg : String)
deriving DecidableEq

/-- Returns true exactly when the result is a 200 response produced by
simulateCustomOperation. -/
def SdkResult.isCustom : SdkResult → Bool
  | .json (.custom _ _) => true
  | _ => false

/-- Returns true exactly when the result is a 400 error response. -/
def SdkResult.isBadRequest : SdkResult → Bool
  | .badRequest _ => true
  | _ => false

/-- The literal case labels of the dispatch switch of the POST handler of
route.ts, in source order. -/
def sdkOperations : List String :=
  ["analyze", "findDeadCode", "editFile", "createFile", "deleteFile",
   "getSymbol", "renameSymbol", "moveSymbol", "semanticEdit",
   "getDependencies", "analyzeImports", "addImport", "analyzeJsxComponent",
   "getCallGraph", "getCodebaseStructure", "findFunctionsByPattern",
   "findClassesByPattern", "searchCode", "semanticSearch", "getAllFiles",
   "getAllFunctions", "getAllClasses", "getFileContent", "extractFunction",
   "refactorCode", "generateDocumentation", "addParameter",
   "removeParameter", "changeReturnType", "findUnusedImports",
   "removeUnusedImports", "formatCode", "custom_"]

/-- The switch statement of the POST handler of route.ts: each literal
case label routes to its simulate* function; the custom case calls
simulateCustomOperation with the operation string itself; the default
branch is a 400 response. -/
def sdkDispatch (op : String) (p : Params) : SdkResult :=
  if op = "analyze" then .json (.analyze p)
  else if op = "findDeadCode" then .json (.findDeadCode p)
  else if op = "editFile" then .json (.editFile p)
  else if op = "createFile" then .json (.createFile p)
  else if op = "deleteFile" then .json (.deleteFile p)
  else if op = "getSymbol" then .json (.getSymbol p)
  else if op = "renameSymbol" then .json (.renameSymbol p)
  else if op = "moveSymbol" then .json (.moveSymbol p)
  else if op = "semanticEdit" then .json (.semanticEdit p)
  else if op = "getDependencies" then .json (.getDependencies p)
  else if op = "analyzeImports" then .json (.analyzeImports p)
  else if op = "addImport" then .json (.addImport p)
  else if op = "analyzeJsxComponent" then .json (.analyzeJsxComponent p)
  else if op = "getCallGraph" then .json (.getCallGraph p)
  else if op = "getCodebaseStructure" then .json (.getCodebaseStructure p)
  else if op = "findFunctionsByPattern" then .json (.findFunctionsByPattern p)
  else if op = "findClassesByPattern" then .json (.findClassesByPattern p)
  else if op = "searchCode" then .json (.searchCode p)
  else if op = "semanticSearch" then .json (.semanticSearch p)
  else if op = "getAllFiles" then .json (.getAllFiles p)
  else if op = "getAllFunctions" then .json (.getAllFunctions p)
  else if op = "getAllClasses" then .json (.getAllClasses p)
  else if op = "getFileContent" then .json (.getFileContent p)
  else if op = "extractFunction" then .json (.extractFunction p)
  else if op = "refactorCode" then .json (.refactorCode p)
  else if op = "generateDocumentation" then .json (.generateDocumentation p)
  else if op = "addParameter" then .json (.addParameter p)
  else if op = "removeParameter" then .json (.removeParameter p)
  else if op = "changeReturnType" then .json (.changeReturnType p)
  else if op = "findUnusedImports" then .json (.findUnusedImports p)
  else if op = "removeUnusedImports" then .json (.removeUnusedImports p)
  else if op = "formatCode" then .json (.formatCode p)
  else if op = "custom_" then .json (.custom op p)
  else .badRequest ("Unsupported operation: " ++ op)

/-- The POST handler of route.ts.  The operation field of the request body
is optional; the falsy check (`if (!operation)`) rejects both an absent
field and an empty string with the missing-field 400 response, then the
switch dispatches. -/
def sdkPOST (operation : Option String) (p : Params) : SdkResult :=
  match operation with
  | none => .badRequest "Missing required field: operation"
  | some op =>
    if op = "" then .badRequest "Missing required field: operation"
    else sdkDispatch op p

/-! ## Part C: the knowledge-transfer API route
    (codebaseQA/frontend/app/api/knowledge-transfer/route.ts) -/

/-- An author record of the mock payload. -/
structure KAuthor where
  id : String
  name : String
  email : String
  isAI : Bool
deriving DecidableEq

/-- A contribution record of the mock payload.  Dates are represented as
integer millisecond timestamps (the source converts them to ISO strings,
a presentation detail not modelled). -/
structure KContribution where
  id : String
  authorId : String
  filename : String
  date : Int
  linesAdded : Nat
  linesRemoved : Nat
  commitMessage : String
  commitHash : String
deriving DecidableEq

/-- A pattern-transfer record of the mock payload. -/
structure KPatternTransfer where
  id : String
  sourceAuthorId : String
  targetAuthorId : String
  pattern : String
  firstSeenDate : Int
  adoptionDate : Int
  frequency : Nat
  files : List String
deriving DecidableEq

/-- The full mock payload returned by generateMockData. -/
structure KnowledgeData where
  authors : List KAuthor
  contributions : List KContribution
  patternTransfers : List KPatternTransfer
deriving DecidableEq

/-- The nondeterministic environment of generateMockData: the value of
Date.now() and the outcome of every Math.random() draw, one field per
random-choice site, indexed by the element being generated.  Each integer
draw is an arbitrary natural number reduced with a modulus at the use
site, mirroring `Math.floor(Math.random() * n)`. -/
structure Rng where
  now : Int
  contribAuthor : Nat → Nat
  contribDir : Nat → Nat
  contribBase : Nat → Nat
  contribExt : Nat → Nat
  contribDate : Nat → Nat
  contribAdded : Nat → Nat
  contribRemoved : Nat → Nat
  contribVerb : Nat → Nat
  contribNoun : Nat → Nat
  contribHash : Nat → String
  ptCoin : Nat → Bool
  ptSourceAi : Nat → Nat
  ptSourceAny : Nat → Nat
  ptTargetNonAi : Nat → Nat
  ptTargetDraw : Nat → Nat → Nat
  ptPattern : Nat → Nat
  ptFirstSeen : Nat → Nat
  ptAdoptGap : Nat → Nat
  ptFreq : Nat → Nat
  ptFilesLen : Nat → Nat
  ptFileIdx : Nat → Nat → Nat

/-- `const authorCount = 8` of route.ts. -/
def authorCount : Nat := 8

/-- `const aiAuthorCount = 2` of route.ts. -/
def aiAuthorCount : Nat := 2

/-- `const contributionCount = 50` of route.ts. -/
def contributionCount : Nat := 50

/-- `const patternCount = 15` of route.ts. -/
def patternCount : Nat := 15

/-- The directory-name pool of the contribution filename template. -/
def dirNames : List String := ["components", "utils", "hooks", "pages"]

/-- The base-name pool of the contribution filename template. -/
def baseNames : List String := ["index", "main", "helper", "utils"]

/-- The extension pool of the contribution filename template. -/
def extNames : List String := ["js", "ts", "tsx", "jsx"]

/-- The commit-message verb pool of route.ts. -/
def msgVerbs : List String := ["Add", "Update", "Fix", "Refactor"]

/-- The commit-message noun pool of route.ts. -/
def msgNouns : List String := ["feature", "bug", "component", "function"]

/-- The pattern-name pool of route.ts. -/
def patternNames : List String :=
  ["React hooks pattern",
   "Error boundary implementation",
   "State management approach",
   "API request pattern",
   "Component composition",
   "Utility function structure",
   "Testing methodology",
   "Type definition pattern",
   "CSS-in-JS approach",
   "Form validation technique"]

/-- One author of the `Array.from(\x7b length: authorCount \x7d, ...)` of
route.ts: the first aiAuthorCount indices (i < 2) are AI authors. -/
def mkAuthor (i : Nat) : KAuthor :=
  { id := "author-" ++ toString (i + 1)
  , name := if i < aiAuthorCount then "AI Assistant " ++ toString (i + 1)
            else "Developer " ++ toString (i + 1)
  , email := if i < aiAuthorCount then "ai-assistant-" ++ toString (i + 1) ++ "@example.com"
             else "dev-" ++ toString (i + 1) ++ "@example.com"
  , isAI := decide (i < aiAuthorCount) }

/-- The authors array of generateMockData (it consumes no randomness). -/
def mockAuthors : List KAuthor :=
  (List.range authorCount).map mkAuthor

/-- One contribution of the contributions array of generateMockData. -/
def mkContribution (ρ : Rng) (i : Nat) : KContribution :=
  { id := "contribution-" ++ toString (i + 1)
  , authorId := "author-" ++ toString (ρ.contribAuthor i % authorCount + 1)
  , filename := "src/" ++ dirNames.getD (ρ.contribDir i % 4) ""
      ++ "/" ++ baseNames.getD (ρ.contribBase i % 4) ""
      ++ "." ++ extNames.getD (ρ.contribExt i % 4) ""
  , date := ρ.now - (ρ.contribDate i % 10000000000 : Nat)
  , linesAdded := ρ.contribAdded i % 100 + 1
  , linesRemoved := ρ.contribRemoved i % 20
  , commitMessage := msgVerbs.getD (ρ.contribVerb i % 4) ""
      ++ " " ++ msgNouns.getD (ρ.contribNoun i % 4) ""
  , commitHash := ρ.contribHash i }

/-- The contributions array of generateMockData. -/
def mockContributions (ρ : Rng) : List KContribution :=
  (List.range contributionCount).map (mkContribution ρ)

/-- The JavaScript `String.prototype.includes` substring test, used by the
pattern-transfer target selection. -/
def jsIncludes (s t : String) : Bool :=
  decide ((s.splitOn t).length > 1)

/-- The `while (targetAuthorId === sourceAuthorId)` re-draw loop of
route.ts, which keeps drawing until the candidate differs from the source.
The source loops without bound; the model carries explicit fuel and
returns the current draw when the fuel runs out. -/
def pickDifferent (source : String) (pick : Nat → String) (j : Nat) :
    Nat → String
  | 0 => pick j
  | fuel + 1 => if pick j = source then pickDifferent source pick (j + 1) fuel else pick j

/-- The sourceAuthorId selection of one pattern transfer: with the
0.7-probability coin and on every third index, an AI author; otherwise any
author. -/
def ptSourceId (ρ : Rng) (i : Nat) : String :=
  if ρ.ptCoin i && decide (i % 3 = 0) then
    "author-" ++ toString (ρ.ptSourceAi i % aiAuthorCount + 1)
  else
    "author-" ++ toString (ρ.ptSourceAny i % authorCount + 1)

/-- The targetAuthorId selection of one pattern transfer: when the source
id contains "author-1" or "author-2" the target is drawn from the non-AI
authors, otherwise from all authors with re-draws while equal to the
source. -/
def ptTargetId (ρ : Rng) (i : Nat) (source : String) : String :=
  if jsIncludes source "author-1" || jsIncludes source "author-2" then
    "author-" ++ toString (ρ.ptTargetNonAi i % (authorCount - aiAuthorCount) + aiAuthorCount + 1)
  else
    pickDifferent source
      (fun j => "author-" ++ toString (ρ.ptTargetDraw i j % authorCount + 1))
      0 authorCount

/-- One pattern transfer of the patternTransfers array of
generateMockData; its files list samples filenames from the contributions
array. -/
def mkPatternTransfer (ρ : Rng) (contribs : List KContribution) (i : Nat) :
    KPatternTransfer :=
  let sourceAuthorId := ptSourceId ρ i
  let targetAuthorId := ptTargetId ρ i sourceAuthorId
  let firstSeen : Int := ρ.now - (ρ.ptFirstSeen i % 20000000000 : Nat)
  { id := "pattern-" ++ toString (i + 1)
  , sourceAuthorId := sourceAuthorId
  , targetAuthorId := targetAuthorId
  , pattern := patternNames.getD (ρ.ptPattern i % patternNames.length) ""
  , firstSeenDate := firstSeen
  , adoptionDate := firstSeen + (ρ.ptAdoptGap i % 10000000000 : Nat)
  , frequency := ρ.ptFreq i % 10 + 1
  , files := (List.range (ρ.ptFilesLen i % 5 + 1)).map (fun j =>
      match contribs.get? (ρ.ptFileIdx i j % contributionCount) with
      | some c => c.filename
      | none => "") }

/-- generateMockData of route.ts: the repo and timeRange parameters are
received but never read by the body; all variability comes from the random
environment. -/
def generateMockData (repo timeRange : String) (ρ : Rng) : KnowledgeData :=
  let contributions := mockContributions ρ
  { authors := mockAuthors
  , contributions := contributions
  , patternTransfers := (List.range patternCount).map (mkPatternTransfer ρ contributions) }

/-- The GET handler of route.ts: reads the repo and timeRange query
parameters (with defaults) and returns the generated mock payload. -/
def knowledgeGET (repoParam timeRangeParam : Option String) (ρ : Rng) :
    KnowledgeData :=
  generateMockData (repoParam.getD "") (timeRangeParam.getD "last-6-months") ρ

/-! ## Helper lemmas -/

theorem evaluate_all_eq (R : List Repository) (S : Finset Nat) (h : ¬ S = ∅) :
    evaluate R S .ALL = .ok (R.filter (keepRepo S .ALL)) := by
  simp [evaluate, h]

theorem evaluate_any_eq (R : List Repository) (S : Finset Nat) (h : ¬ S = ∅) :
    evaluate R S .ANY = .ok (R.filter (keepRepo S .ANY)) := by
  simp [evaluate, h]

theorem evaluate_uncat_eq (R : List Repository) (S : Finset Nat) :
    evaluate R S .UNCATEGORIZED = .ok (R.filter (keepRepo S .UNCATEGORIZED)) := rfl

theorem keepRepo_all_iff (S : Finset Nat) (r : Repository) :
    keepRepo S .ALL r = true ↔ S ⊆ r.categoryIds := by
  simp [keepRepo]

theorem keepRepo_any_iff (S : Finset Nat) (r : Repository) :
    keepRepo S .ANY r = true ↔ ¬ S ∩ r.categoryIds = ∅ := by
  simp [keepRepo]

theorem keepRepo_uncat_iff (S : Finset Nat) (r : Repository) :
    keepRepo S .UNCATEGORIZED r = true ↔ r.categoryIds = ∅ := by
  simp [keepRepo]

theorem filter_singleton_eq (p : Repository → Bool) (r : Repository) :
    List.filter p [r] = if p r then [r] else [] := by
  cases hp : p r <;> simp [List.filter_cons, hp]

theorem mem_categoryIdSet {s : StoreState} {x : Nat} :
    x ∈ categoryIdSet s ↔ ∃ c ∈ s.categories, c.id = x := by
  simp [categoryIdSet]

theorem deleteCategory_ok_shape {s : StoreState} {cid : Nat} {s2 : StoreState}
    (h : deleteCategory s cid = .ok s2) :
    s2.categories = s.categories.filter (fun c => decide (¬ c.id = cid)) ∧
    s2.repos = s.repos.map (fun r => { r with categoryIds := r.categoryIds.erase cid }) ∧
    s2.views = s.views := by
  unfold deleteCategory at h
  split_ifs at h
  cases h
  exact ⟨rfl, rfl, rfl⟩

theorem deleteCategory_cascade {s : StoreState} {cid : Nat} {s2 : StoreState}
    (h : deleteCategory s cid = .ok s2) : ∀ r ∈ s2.repos, cid ∉ r.categoryIds := by
  intro r hr
  rw [(deleteCategory_ok_shape h).2.1] at hr
  rcases List.mem_map.mp hr with ⟨r0, _, rfl⟩
  exact Finset.not_mem_erase cid r0.categoryIds

theorem createCategory_integrity {s : StoreState} {cid : Nat} {name : String}
    {color : Option String} {s2 : StoreState} (hint : integrity s)
    (h : createCategory s cid name color = .ok s2) : integrity s2 := by
  unfold createCategory at h
  split_ifs at h
  cases h
  intro r hr x hx
  rcases mem_categoryIdSet.mp (hint r hr hx) with ⟨c, hc, hcid⟩
  exact mem_categoryIdSet.mpr ⟨c, by simp [List.mem_append.mpr (Or.inl hc)], hcid⟩

theorem updateCategory_integrity {s : StoreState} {cid : Nat} {name : Option String}
    {color : Option String} {s2 : StoreState} (hint : integrity s)
    (h : updateCategory s cid name color = .ok s2) : integrity s2 := by
  unfold updateCategory at h
  split_ifs at h
  cases h
  intro r hr x hx
  rcases mem_categoryIdSet.mp (hint r hr hx) with ⟨c, hc, hcid⟩
  apply mem_categoryIdSet.mpr
  refine ⟨_, List.mem_map_of_mem _ hc, ?_⟩
  show (if c.id = cid then _ else c).id = x
  split
  · exact hcid
  · exact hcid

theorem deleteCategory_integrity {s : StoreState} {cid : Nat} {s2 : StoreState}
    (hint : integrity s) (h : deleteCategory s cid = .ok s2) : integrity s2 := by
  obtain ⟨hcats, hrepos, _⟩ := deleteCategory_ok_shape h
  intro r hr x hx
  rw [hrepos] at hr
  rcases List.mem_map.mp hr with ⟨r0, hr0, rfl⟩
  have hxne : x ≠ cid := Finset.ne_of_mem_erase hx
  have hxmem : x ∈ r0.categoryIds := Finset.mem_of_mem_erase hx
  rcases mem_categoryIdSet.mp (hint r0 hr0 hxmem) with ⟨c, hc, hcid⟩
  apply mem_categoryIdSet.mpr
  refine ⟨c, ?_, hcid⟩
  rw [hcats]
  exact List.mem_filter.mpr ⟨hc, by simp [hcid, hxne]⟩

theorem saveRepository_integrity {s : StoreState} {p : RepositoryPayload}
    {catIds : Finset Nat} {s2 : StoreState} (hint : integrity s)
    (h : saveRepository s p catIds = .ok s2) : integrity s2 := by
  unfold saveRepository at h
  split_ifs at h with hdup hsub
  cases h
  intro r hr x hx
  rcases List.mem_append.mp hr with hold | hnew
  · exact hint r hold hx
  · have : r = { id := p.id, payload := p.payload, categoryIds := catIds } := by
      simpa using hnew
    subst this
    exact hsub hx

theorem removeRepository_integrity {s : StoreState} {rid : Nat} {s2 : StoreState}
    (hint : integrity s) (h : removeRepository s rid = .ok s2) : integrity s2 := by
  unfold removeRepository at h
  split_ifs at h
  cases h
  intro r hr x hx
  exact hint r (List.mem_of_mem_filter hr) hx

theorem addCategories_integrity {s : StoreState} {rid : Nat} {catIds : Finset Nat}
    {s2 : StoreState} (hint : integrity s)
    (h : addCategories s rid catIds = .ok s2) : integrity s2 := by
  unfold addCategories at h
  split_ifs at h with hsub hmem
  cases h
  intro r hr x hx
  rcases List.mem_map.mp hr with ⟨r0, hr0, rfl⟩
  by_cases hid : r0.id = rid
  · rw [if_pos hid] at hx
    rcases Finset.mem_union.mp hx with hleft | hright
    · exact hint r0 hr0 hleft
    · exact hsub hright
  · rw [if_neg hid] at hx
    exact hint r0 hr0 hx

theorem removeCategories_integrity {s : StoreState} {rid : Nat} {catIds : Finset Nat}
    {s2 : StoreState} (hint : integrity s)
    (h : removeCategories s rid catIds = .ok s2) : integrity s2 := by
  unfold removeCategories at h
  split_ifs at h with hsub hmem
  cases h
  intro r hr x hx
  rcases List.mem_map.mp hr with ⟨r0, hr0, rfl⟩
  by_cases hid : r0.id = rid
  · rw [if_pos hid] at hx
    exact hint r0 hr0 (Finset.sdiff_subset hx)
  · rw [if_neg hid] at hx
    exact hint r0 hr0 hx

theorem createView_integrity {s : StoreState} {vid : Nat} {name : String}
    {catIds : Finset Nat} {mode : FilterMode} {s2 : StoreState} (hint : integrity s)
    (h : createView s vid name catIds mode = .ok s2) : integrity s2 := by
  unfold createView at h
  split_ifs at h
  cases h
  exact hint

theorem renameView_integrity {s : StoreState} {vid : Nat} {newName : String}
    {s2 : StoreState} (hint : integrity s)
    (h : renameView s vid newName = .ok s2) : integrity s2 := by
  unfold renameView at h
  split_ifs at h
  cases h
  exact hint

theorem deleteView_integrity {s : StoreState} {vid : Nat} {s2 : StoreState}
    (hint : integrity s) (h : deleteView s vid = .ok s2) : integrity s2 := by
  unfold deleteView at h
  split_ifs at h
  cases h
  exact hint

/-! ## Claim theorems -/

/-- C1 (counterexample): the claim quantifies over every category set S,
but at S = ∅ the evaluator rejects the call with ValidationError even
though ∅ ⊆ r.categoryIds, so it does not return the singleton the claim
requires. -/
theorem evaluate_all_empty_selection_cex :
    (∅ : Finset Nat) ⊆ (Repository.mk 1 "repo" ∅).categoryIds ∧
    evaluate [Repository.mk 1 "repo" ∅] ∅ .ALL = .error .validationError ∧
    ¬ evaluate [Repository.mk 1 "repo" ∅] ∅ .ALL = .ok [Repository.mk 1 "repo" ∅] := by
  refine ⟨Finset.empty_subset _, rfl, ?_⟩
  intro hcontra
  simp [evaluate] at hcontra

/-- C1 (amended: for every non-empty set of selected category ids S; the
empty set is rejected with ValidationError): in mode ALL the filter keeps
a repository r iff S ⊆ r.categoryIds, so on a singleton input it returns
the singleton iff S ⊆ r.categoryIds and the empty list otherwise. -/
theorem evaluate_all_singleton_iff (r : Repository) (S : Finset Nat) (h : ¬ S = ∅) :
    (evaluate [r] S .ALL = .ok [r] ↔ S ⊆ r.categoryIds) ∧
    (evaluate [r] S .ALL = .ok [] ↔ ¬ S ⊆ r.categoryIds) := by
  rw [evaluate_all_eq _ _ h, filter_singleton_eq]
  cases hk : keepRepo S .ALL r
  · have hsub : ¬ S ⊆ r.categoryIds := by
      rw [← keepRepo_all_iff S r, hk]
      simp
    simp [hsub]
  · have hsub : S ⊆ r.categoryIds := (keepRepo_all_iff S r).mp hk
    simp [hsub]

/-- C1 (witness). -/
theorem evaluate_all_singleton_iff_witness :
    evaluate [Repository.mk 1 "repo" {2, 3}] {2} .ALL = .ok [Repository.mk 1 "repo" {2, 3}] :=
  (evaluate_all_singleton_iff (Repository.mk 1 "repo" {2, 3}) {2} (by decide)).1.mpr (by decide)

/-- C2 (counterexample): the claim quantifies over every category set S
and requires the empty result whenever S ∩ r.categoryIds = ∅, but at
S = ∅ the evaluator rejects the call with ValidationError instead of
returning the empty list. -/
theorem evaluate_any_empty_selection_cex :
    (∅ : Finset Nat) ∩ (Repository.mk 1 "repo" {2}).categoryIds = ∅ ∧
    evaluate [Repository.mk 1 "repo" {2}] ∅ .ANY = .error .validationError ∧
    ¬ evaluate [Repository.mk 1 "repo" {2}] ∅ .ANY = .ok [] := by
  refine ⟨Finset.empty_inter _, rfl, ?_⟩
  intro hcontra
  simp [evaluate] at hcontra

/-- C2 (amended: for every non-empty set of selected category ids S; the
empty set is rejected with ValidationError): in mode ANY the filter keeps
a repository r iff S ∩ r.categoryIds ≠ ∅, so on a singleton input it
returns the singleton iff the intersection is non-empty and the empty
list otherwise. -/
theorem evaluate_any_singleton_iff (r : Repository) (S : Finset Nat) (h : ¬ S = ∅) :
    (evaluate [r] S .ANY = .ok [r] ↔ ¬ S ∩ r.categoryIds = ∅) ∧
    (evaluate [r] S .ANY = .ok [] ↔ S ∩ r.categoryIds = ∅) := by
  rw [evaluate_any_eq _ _ h, filter_singleton_eq]
  cases hk : keepRepo S .ANY r
  · have hint2 : S ∩ r.categoryIds = ∅ := by
      by_contra hne
      exact absurd ((keepRepo_any_iff S r).mpr hne) (by simp [hk])
    simp [hint2]
  · have hint : ¬ S ∩ r.categoryIds = ∅ := (keepRepo_any_iff S r).mp hk
    simp [hint]

/-- C2 (witness). -/
theorem evaluate_any_singleton_iff_witness :
    evaluate [Repository.mk 1 "repo" {2, 3}] {3, 4} .ANY = .ok [Repository.mk 1 "repo" {2, 3}] :=
  (evaluate_any_singleton_iff (Repository.mk 1 "repo" {2, 3}) {3, 4} (by decide)).1.mpr (by decide)

/-- C3: in mode UNCATEGORIZED the evaluator returns exactly the
repositories whose categoryIds set is empty, and the result is
independent of the selected-category argument, which is ignored. -/
theorem evaluate_uncategorized_exact (R : List Repository) (S T : Finset Nat) :
    evaluate R S .UNCATEGORIZED = .ok (R.filter (fun r => decide (r.categoryIds = ∅))) ∧
    evaluate R S .UNCATEGORIZED = evaluate R T .UNCATEGORIZED := ⟨rfl, rfl⟩

/-- C4: a successful Category Store delete cascades completely: no
repository in the resulting state retains the deleted category id in its
categoryIds; and together with write-time validation, every store
operation preserves the invariant that every repository references only
existing categories. -/
theorem delete_cascade_and_integrity :
    (∀ (s : StoreState) (cid : Nat) (s2 : StoreState),
        deleteCategory s cid = .ok s2 → ∀ r ∈ s2.repos, cid ∉ r.categoryIds) ∧
    (∀ (s : StoreState) (op : StoreOp) (s2 : StoreState),
        integrity s → applyOp s op = .ok s2 → integrity s2) := by
  constructor
  · exact fun s cid s2 h => deleteCategory_cascade h
  · intro s op s2 hint h
    cases op with
    | createCategoryOp cid name color => exact createCategory_integrity hint h
    | updateCategoryOp cid name color => exact updateCategory_integrity hint h
    | deleteCategoryOp cid => exact deleteCategory_integrity hint h
    | saveRepositoryOp p catIds => exact saveRepository_integrity hint h
    | removeRepositoryOp rid => exact removeRepository_integrity hint h
    | addCategoriesOp rid catIds => exact addCategories_integrity hint h
    | removeCategoriesOp rid catIds => exact removeCategories_integrity hint h
    | createViewOp vid name catIds mode => exact createView_integrity hint h
    | renameViewOp vid name => exact renameView_integrity hint h
    | deleteViewOp vid => exact deleteView_integrity hint h

/-- C4 (witness). -/
theorem delete_cascade_and_integrity_witness :
    1 ∉ (Repository.mk 11 "r2" {2}).categoryIds ∧
    integrity (StoreState.mk [Category.mk 2 "ml" none]
      [Repository.mk 10 "r1" ∅, Repository.mk 11 "r2" {2}] []) :=
  ⟨delete_cascade_and_integrity.1
      (StoreState.mk [Category.mk 1 "infra" none, Category.mk 2 "ml" none]
        [Repository.mk 10 "r1" {1}, Repository.mk 11 "r2" {1, 2}] [])
      1
      (StoreState.mk [Category.mk 2 "ml" none]
        [Repository.mk 10 "r1" ∅, Repository.mk 11 "r2" {2}] [])
      (by decide)
      (Repository.mk 11 "r2" {2})
      (by decide),
   delete_cascade_and_integrity.2
      (StoreState.mk [Category.mk 1 "infra" none, Category.mk 2 "ml" none]
        [Repository.mk 10 "r1" {1}, Repository.mk 11 "r2" {1, 2}] [])
      (StoreOp.deleteCategoryOp 1)
      (StoreState.mk [Category.mk 2 "ml" none]
        [Repository.mk 10 "r1" ∅, Repository.mk 11 "r2" {2}] [])
      (by decide)
      (by decide)⟩

/-- C5: saving a payload whose stable remote id is already saved fails
with DuplicateError, and the transactional execution of the failed save
leaves the store state unchanged. -/
theorem save_duplicate_rejected_unchanged (s : StoreState) (p : RepositoryPayload)
    (cats cats2 : Finset Nat) (s2 : StoreState)
    (h : saveRepository s p cats = .ok s2) :
    saveRepository s2 p cats2 = .error .duplicateError ∧
    exec s2 (.saveRepositoryOp p cats2) = s2 := by
  unfold saveRepository at h
  split_ifs at h with hdup hsub
  cases h
  have hrej : saveRepository
      { s with repos := s.repos ++ [{ id := p.id, payload := p.payload, categoryIds := cats }] }
      p cats2 = .error .duplicateError := by
    unfold saveRepository
    simp [List.any_append]
  exact ⟨hrej, by simp [exec, applyOp, hrej]⟩

/-- C5 (witness). -/
theorem save_duplicate_rejected_unchanged_witness :
    saveRepository (StoreState.mk [] [Repository.mk 5 "x" ∅] [])
      (RepositoryPayload.mk 5 "x") ∅ = .error .duplicateError ∧
    exec (StoreState.mk [] [Repository.mk 5 "x" ∅] [])
      (.saveRepositoryOp (RepositoryPayload.mk 5 "x") ∅) =
      StoreState.mk [] [Repository.mk 5 "x" ∅] [] :=
  save_duplicate_rejected_unchanged (StoreState.mk [] [] [])
    (RepositoryPayload.mk 5 "x") ∅ ∅
    (StoreState.mk [] [Repository.mk 5 "x" ∅] []) (by decide)

/-- C6: the filter evaluator is stable: whatever the selected set and
mode, a successful evaluation returns a sublist of its input, every kept
repository appearing in its original relative order. -/
theorem evaluate_sublist (R : List Repository) (S : Finset Nat) (mode : FilterMode)
    (out : List Repository) (h : evaluate R S mode = .ok out) :
    List.Sublist out R := by
  unfold evaluate at h
  split_ifs at h
  · cases h
    exact List.filter_sublist R
  · cases h
    exact List.filter_sublist R

/-- C6 (witness). -/
theorem evaluate_sublist_witness :
    List.Sublist [Repository.mk 1 "a" {1}] [Repository.mk 1 "a" {1}, Repository.mk 2 "b" ∅] :=
  evaluate_sublist [Repository.mk 1 "a" {1}, Repository.mk 2 "b" ∅] {1} .ANY
    [Repository.mk 1 "a" {1}] (by decide)

/-- C7: an empty selected-category set with mode ALL or ANY is rejected by
the evaluator with ValidationError, and the same non-empty-set invariant
is enforced with ValidationError when a View with mode ALL or ANY is
created. -/
theorem empty_selection_validation (R : List Repository) (s : StoreState)
    (vid : Nat) (name : String) :
    evaluate R ∅ .ALL = .error .validationError ∧
    evaluate R ∅ .ANY = .error .validationError ∧
    createView s vid name ∅ .ALL = .error .validationError ∧
    createView s vid name ∅ .ANY = .error .validationError := by
  refine ⟨rfl, rfl, ?_, ?_⟩ <;> simp [createView]

/-- C8: the filter evaluator is a pure function of its arguments in this
embedding (it reads no store state), and it is idempotent: re-evaluating
a successful result with the same selection and mode returns that result
unchanged. -/
theorem evaluate_idempotent (R : List Repository) (S : Finset Nat) (mode : FilterMode)
    (out : List Repository) (h : evaluate R S mode = .ok out) :
    evaluate out S mode = .ok out := by
  unfold evaluate at h ⊢
  split_ifs at h ⊢
  · cases h
    exact congrArg Except.ok
      (List.filter_eq_self.mpr fun a ha => List.of_mem_filter ha)
  · cases h
    exact congrArg Except.ok
      (List.filter_eq_self.mpr fun a ha => List.of_mem_filter ha)

/-- C8 (witness). -/
theorem evaluate_idempotent_witness :
    evaluate [Repository.mk 1 "a" {1}] {1} .ANY = .ok [Repository.mk 1 "a" {1}] :=
  evaluate_idempotent [Repository.mk 1 "a" {1}, Repository.mk 2 "b" ∅] {1} .ANY
    [Repository.mk 1 "a" {1}] (by decide)

set_option maxHeartbeats 2000000 in
theorem sdkDispatch_unknown (op : String) (p : Params) (h : op ∉ sdkOperations) :
    sdkDispatch op p = .badRequest ("Unsupported operation: " ++ op) := by
  simp only [sdkOperations, List.mem_cons, List.not_mem_nil, or_false, not_or] at h
  obtain ⟨h1, h2, h3, h4, h5, h6, h7, h8, h9, h10, h11, h12, h13, h14, h15, h16, h17,
    h18, h19, h20, h21, h22, h23, h24, h25, h26, h27, h28, h29, h30, h31, h32, h33⟩ := h
  unfold sdkDispatch
  rw [if_neg h1, if_neg h2, if_neg h3, if_neg h4, if_neg h5, if_neg h6, if_neg h7,
      if_neg h8, if_neg h9, if_neg h10, if_neg h11, if_neg h12, if_neg h13, if_neg h14,
      if_neg h15, if_neg h16, if_neg h17, if_neg h18, if_neg h19, if_neg h20, if_neg h21,
      if_neg h22, if_neg h23, if_neg h24, if_neg h25, if_neg h26, if_neg h27, if_neg h28,
      if_neg h29, if_neg h30, if_neg h31, if_neg h32, if_neg h33]

set_option maxHeartbeats 4000000 in
theorem sdkDispatch_isCustom (op : String) (p : Params) :
    (sdkDispatch op p).isCustom = true ↔ op = "custom_" := by
  by_cases hmem : op ∈ sdkOperations
  · simp only [sdkOperations, List.mem_cons, List.not_mem_nil, or_false] at hmem
    rcases hmem with rfl | rfl | rfl | rfl | rfl | rfl | rfl | rfl | rfl | rfl | rfl |
      rfl | rfl | rfl | rfl | rfl | rfl | rfl | rfl | rfl | rfl | rfl | rfl | rfl |
      rfl | rfl | rfl | rfl | rfl | rfl | rfl | rfl | rfl
    all_goals simp [sdkDispatch, SdkResult.isCustom]
  · rw [sdkDispatch_unknown op p hmem]
    have hne : ¬ op = "custom_" := fun hcontra => hmem (by rw [hcontra]; decide)
    simp [SdkResult.isCustom, hne]

/-- C9: a POST body without an operation string, or with an operation
string that is not one of the literal case labels of the dispatch switch,
gets a 400 response; and the result comes from simulateCustomOperation
exactly when the operation equals the literal string of the custom case
label, so that branch is unreachable for any other operation name. -/
theorem sdk_dispatch_rejects_unknown (operation : Option String) (p : Params) :
    ((operation = none ∨ ∃ s, operation = some s ∧ s ∉ sdkOperations) →
      ∃ msg, sdkPOST operation p = .badRequest msg) ∧
    ((sdkPOST operation p).isCustom = true ↔ operation = some "custom_") := by
  cases operation with
  | none =>
    refine ⟨fun _ => ⟨"Missing required field: operation", rfl⟩, ?_⟩
    simp [sdkPOST, SdkResult.isCustom]
  | some op =>
    by_cases hop : op = ""
    · subst hop
      refine ⟨fun _ => ⟨"Missing required field: operation", rfl⟩, ?_⟩
      simp [sdkPOST, SdkResult.isCustom]
    · constructor
      · rintro (hnone | ⟨s, hs, hmem⟩)
        · cases hnone
        · injection hs with hs2
          subst hs2
          refine ⟨"Unsupported operation: " ++ op, ?_⟩
          have hpost : sdkPOST (some op) p =
              if op = "" then .badRequest "Missing required field: operation"
              else sdkDispatch op p := rfl
          rw [hpost, if_neg hop]
          exact sdkDispatch_unknown op p hmem
      · have hpost : sdkPOST (some op) p =
            if op = "" then .badRequest "Missing required field: operation"
            else sdkDispatch op p := rfl
        rw [hpost, if_neg hop, sdkDispatch_isCustom op p]
        simp

/-- C9 (witness). -/
theorem sdk_dispatch_rejects_unknown_witness :
    (∃ msg, sdkPOST (some "bogus") [] = .badRequest msg) ∧
    ((sdkPOST (some "bogus") []).isCustom = true ↔
      (some "bogus" : Option String) = some "custom_") :=
  ⟨(sdk_dispatch_rejects_unknown (some "bogus") []).1
      (Or.inr ⟨"bogus", rfl, by decide⟩),
   (sdk_dispatch_rejects_unknown (some "bogus") []).2⟩

/-- C10: the knowledge-transfer GET handler always returns exactly 8
authors of which exactly the first 2 are marked as AI, exactly 50
contributions, and exactly 15 pattern transfers; and because the repo and
timeRange query parameters are passed to the generator but never read,
the response does not depend on them. -/
theorem knowledge_transfer_mock_shape (repoParam timeRangeParam : Option String) (ρ : Rng) :
    (knowledgeGET repoParam timeRangeParam ρ).authors.length = 8 ∧
    (knowledgeGET repoParam timeRangeParam ρ).authors.map KAuthor.isAI =
      [true, true, false, false, false, false, false, false] ∧
    (knowledgeGET repoParam timeRangeParam ρ).contributions.length = 50 ∧
    (knowledgeGET repoParam timeRangeParam ρ).patternTransfers.length = 15 ∧
    ∀ repoParam2 timeRangeParam2,
      knowledgeGET repoParam timeRangeParam ρ = knowledgeGET repoParam2 timeRangeParam2 ρ := by
  refine ⟨rfl, rfl, ?_, ?_, fun _ _ => rfl⟩
  · simp [knowledgeGET, generateMockData, mockContributions, contributionCount]
  · simp [knowledgeGET, generateMockData, patternCount]

end CodeHub
